import Mathlib

/-
Shallow embedding of the AutoHedge pipeline orchestrator
(src/autohedge/main.py) and the prompt templates it formats
(src/autohedge/prompts.py).

The five LLM reasoning stages and the TickrAgent market-data gateway are
external capabilities with contract `run(prompt: string) -> string` that may
raise; they are modelled as an `Oracles` record of functions
`String → Except PyErr String`.  The swarms `Conversation` class is an
external dependency as well; its append/render operations are modelled from
the spec (section 4.1 / section 6).  Timestamps (`time_enabled=True`) and
logging side effects other than the orchestrator's own error log are
abstracted away; they are not observable by any claim.
-/

/-- One Conversation Ledger entry (role and content).  The timestamp that
`Conversation(time_enabled=True)` attaches is abstracted away. -/
structure Entry where
  role : String
  content : String
deriving DecidableEq, Repr

/-- A Python exception value: either an exception raised by an external
capability (carrying its class name and message) or an AttributeError raised
by attribute lookup on an object (carrying the type name and the missing
attribute).  CPython renders the AttributeError message with quotes around
the two names; the quotes are elided here. -/
inductive PyErr where
  | exn (cls : String) (msg : String)
  | attributeError (tyName : String) (attr : String)
deriving DecidableEq, Repr

/-- Python `str(e)` on an exception: the message.  For AttributeError the
message is "<type> object has no attribute <attr>" (quotes elided). -/
def PyErr.str : PyErr → String
  | .exn _ msg => msg
  | .attributeError tyName attr =>
      tyName ++ " object has no attribute " ++ attr

/-- One invocation of an external capability, recorded in processing order:
the TickrAgent market-data gateway (with the stock list it is constructed
over and the query it is run on, main.py lines 153-164) or one of the four
reasoning agents (with the prompt it receives). -/
inductive Call where
  | tickr (stocks : List String) (query : String)
  | director (prompt : String)
  | quant (prompt : String)
  | risk (prompt : String)
  | execution (prompt : String)
deriving DecidableEq, Repr

/-- The external capabilities consumed by the pipeline: the market-data
gateway and the four reasoning agents.  Each accepts a prompt and either
returns text or raises. -/
structure Oracles where
  tickrRun : String → Except PyErr String
  directorRun : String → Except PyErr String
  quantRun : String → Except PyErr String
  riskRun : String → Except PyErr String
  executionRun : String → Except PyErr String

/- ------------------------------------------------------------------ -/
/- Prompt templates, from src/autohedge/prompts.py, as the `.format`   -/
/- calls in main.py instantiate them.                                  -/
/- ------------------------------------------------------------------ -/

/-- prompts.py RISK_ASSESSMENT_PROMPT, formatted with stock, thesis and
quant_analysis (main.py lines 70-72). -/
def RISK_ASSESSMENT_PROMPT_fmt (stock thesis quant_analysis : String) : String :=
  "\nStock: " ++ stock ++ "\nThesis: " ++ thesis ++ "\nQuant Analysis: "
    ++ quant_analysis
    ++ "\n\nProvide risk assessment including:\n1. Recommended position size\n2. Maximum drawdown risk\n3. Market risk exposure\n4. Overall risk score\n"

/-- prompts.py EXECUTION_ORDER_PROMPT, formatted with stock, thesis and
risk_assessment (main.py lines 93-97). -/
def EXECUTION_ORDER_PROMPT_fmt (stock thesis risk_assessment : String) : String :=
  "\nStock: " ++ stock ++ "\nThesis: " ++ thesis ++ "\nRisk Assessment: "
    ++ risk_assessment
    ++ "\n\nGenerate trade order including:\n1. Order type (market/limit)\n2. Quantity\n3. Entry price\n4. Stop loss\n5. Take profit\n6. Time in force\n"

/-- prompts.py DIRECTOR_THESIS_PROMPT, formatted with task, stock and
market_data (main.py lines 166-168).  The template body contains a literal
backslash-n escape on its second line, so three consecutive newlines
separate the task line from the stock line. -/
def DIRECTOR_THESIS_PROMPT_fmt (task stock market_data : String) : String :=
  "\nTask: " ++ task ++ "\n\n\nStock: " ++ stock ++ "\nMarket Data: "
    ++ market_data ++ "\n"

/-- prompts.py QUANT_ANALYSIS_PROMPT, formatted with stock and thesis
(main.py lines 245-247); the doubled braces of the template are the literal
braces of the requested JSON shape. -/
def QUANT_ANALYSIS_PROMPT_fmt (stock thesis : String) : String :=
  "\nStock: " ++ stock ++ "\nThesis from your Director: " ++ thesis
    ++ "\n\nGenerate quantitative analysis for the " ++ stock
    ++ "\n\n\"ticker\": str,\n\"technical_score\": float (0-1),\n\"volume_score\": float (0-1),\n\"trend_strength\": float (0-1),\n\"volatility\": float,\n\"probability_score\": float (0-1),\n\"key_levels\": \x7b\n    \"support\": float,\n    \"resistance\": float,\n    \"pivot\": float\n\x7d\n"

/-- prompts.py DIRECTOR_DECISION_PROMPT, formatted with thesis and task
(main.py line 180). -/
def DIRECTOR_DECISION_PROMPT_fmt (thesis task : String) : String :=
  "According to the thesis, " ++ thesis ++ ", should we execute this order: "
    ++ task

/-- The query string `generate_thesis` runs the TickrAgent on
(main.py lines 162-164). -/
def marketDataQuery (task stock : String) : String :=
  task ++ " Analyze current market conditions and key metrics for " ++ stock

/- ------------------------------------------------------------------ -/
/- Conversation Ledger operations (swarms.Conversation is an external  -/
/- dependency; these are modelled from the spec).                      -/
/- ------------------------------------------------------------------ -/

/-- Modelled from the spec: `Conversation.add` appends an entry with the
given role and content to the append-only ledger (spec section 4.1). -/
def Conversation.add (ledger : List Entry) (role content : String) : List Entry :=
  ledger ++ [{ role := role, content := content }]

/-- Modelled from the spec: `Conversation.return_messages_as_list` is the
ordered sequence of entries (spec sections 4.1 and 6, the "list" mode). -/
def Conversation.return_messages_as_list (ledger : List Entry) : List Entry :=
  ledger

/-- Modelled from the spec: `Conversation.return_messages_as_dictionary` is
the list-of-dict projection of the same entries, each entry projected to its
role/content pair (spec sections 4.1 and 6, the "dict" mode). -/
def Conversation.return_messages_as_dictionary (ledger : List Entry) :
    List (String × String) :=
  ledger.map (fun en => (en.role, en.content))

/-- Modelled from the spec: `Conversation.return_history_as_string` joins
the entries in order, each rendered as role: content
(spec sections 4.1 and 6, the "str" mode). -/
def Conversation.return_history_as_string (ledger : List Entry) : String :=
  String.intercalate "\n" (ledger.map (fun en => en.role ++ ": " ++ en.content))

/- ------------------------------------------------------------------ -/
/- Stage adapters, from src/autohedge/main.py.                         -/
/- ------------------------------------------------------------------ -/

/-- main.py lines 136-176, `TradingDirector.generate_thesis`: construct a
TickrAgent over the single stock and run it on the market-data query, then
format DIRECTOR_THESIS_PROMPT with task, stock and the fetched market data,
run the director agent on it, and return the pair (thesis, market_data).
The except block logs and re-raises, so errors pass through unchanged.
Returns the calls made together with the outcome. -/
def TradingDirector.generate_thesis (o : Oracles) (task stock : String) :
    List Call × Except PyErr (String × String) :=
  let query := marketDataQuery task stock
  match o.tickrRun query with
  | .error e => ([Call.tickr [stock] query], .error e)
  | .ok market_data =>
    let prompt := DIRECTOR_THESIS_PROMPT_fmt task stock market_data
    match o.directorRun prompt with
    | .error e => ([Call.tickr [stock] query, Call.director prompt], .error e)
    | .ok thesis =>
        ([Call.tickr [stock] query, Call.director prompt],
         .ok (thesis, market_data))

/-- main.py lines 178-181, `TradingDirector.make_decision(task, thesis)`:
run the director agent on DIRECTOR_DECISION_PROMPT formatted with the thesis
and the task argument.  The `*args, **kwargs` of the Python signature are
ignored by the body. -/
def TradingDirector.make_decision (o : Oracles) (task thesis : String) :
    List Call × Except PyErr String :=
  let prompt := DIRECTOR_DECISION_PROMPT_fmt thesis task
  ([Call.director prompt], o.directorRun prompt)

/-- main.py lines 232-255, `QuantAnalyst.analyze(stock, thesis)`: run the
quant agent on QUANT_ANALYSIS_PROMPT formatted with stock and thesis.  The
method has no task parameter; its except block logs and re-raises. -/
def QuantAnalyst.analyze (o : Oracles) (stock thesis : String) :
    List Call × Except PyErr String :=
  let prompt := QUANT_ANALYSIS_PROMPT_fmt stock thesis
  ([Call.quant prompt], o.quantRun prompt)

/-- main.py lines 67-75, `RiskManager.assess_risk(stock, thesis,
quant_analysis)`: run the risk agent on RISK_ASSESSMENT_PROMPT formatted
with the three inputs. -/
def RiskManager.assess_risk (o : Oracles) (stock thesis quant_analysis : String) :
    List Call × Except PyErr String :=
  let prompt := RISK_ASSESSMENT_PROMPT_fmt stock thesis quant_analysis
  ([Call.risk prompt], o.riskRun prompt)

/-- main.py lines 90-99, `ExecutionAgent.generate_order(stock, thesis,
risk_assessment)`: run the execution agent on EXECUTION_ORDER_PROMPT
formatted with the three inputs. -/
def ExecutionAgent.generate_order (o : Oracles) (stock thesis risk_assessment : String) :
    List Call × Except PyErr String :=
  let prompt := EXECUTION_ORDER_PROMPT_fmt stock thesis risk_assessment
  ([Call.execution prompt], o.executionRun prompt)

/- ------------------------------------------------------------------ -/
/- Call-site argument lists inside AutoHedge.run's per-ticker loop.    -/
/- ------------------------------------------------------------------ -/

/-- main.py lines 343-345: the positional argument list of the call
`self.quant.analyze(stock + market_data, thesis)` inside the per-ticker
loop of `AutoHedge.run`.  Exactly two arguments are passed. -/
def quantCallArgs (stock market_data thesis : String) : List String :=
  [stock ++ market_data, thesis]

/-- main.py lines 360-362: the positional argument list of the call
`self.risk.assess_risk(stock + market_data, thesis, analysis)`. -/
def riskCallArgs (stock market_data thesis analysis : String) : List String :=
  [stock ++ market_data, thesis, analysis]

/-- main.py lines 377-382: the positional argument list of the call
`self.director.make_decision(order + market_data + risk_assessment, thesis)`
(line 377 first rebinds `order = str(order)`, the identity on a string).
Exactly two arguments are passed. -/
def makeDecisionCallArgs (order market_data risk_assessment thesis : String) :
    List String :=
  [order ++ market_data ++ risk_assessment, thesis]

/- ------------------------------------------------------------------ -/
/- The AutoHedge orchestrator, from src/autohedge/main.py.             -/
/- ------------------------------------------------------------------ -/

/-- main.py lines 35-43: the per-stock output record `AutoHedgeOutput`
(id and timestamp abstracted away). -/
structure AutoHedgeOutput where
  thesis : Option String
  risk_assessment : Option String
  order : Option String
  decision : String
  current_stock : String
deriving DecidableEq, Repr

/-- The mutable state `AutoHedge.run` threads: the Conversation ledger and
the `self.logs.logs` list of per-stock records, plus the record of calls
made to external capabilities. -/
structure RunState where
  ledger : List Entry
  trace : List Call
  logs : List AutoHedgeOutput
deriving DecidableEq, Repr

/-- The rendered result `AutoHedge.run` returns on success: one of the three
Conversation renderings (main.py lines 407-414). -/
inductive Rendered where
  | list (entries : List Entry)
  | dict (messages : List (String × String))
  | str (history : String)
deriving DecidableEq, Repr

/-- main.py lines 271-311 `AutoHedge.__init__`: configuration fixed at
construction time, with the source's default values.  The output directory,
the agent construction and the file side effects are not observable by any
claim and carry no further state. -/
structure AutoHedge where
  name : String := "autohedge"
  description : String := "fully autonomous hedgefund"
  stocks : List String
  output_dir : String := "outputs"
  output_file_path : Option String := none
  strategy : Option String := none
  output_type : String := "list"
deriving DecidableEq, Repr

/-- main.py lines 407-414: the if/elif chain on `self.output_type` at the
end of `AutoHedge.run`.  An unrecognized value falls through every branch,
so the Python function returns None, modelled as `none`. -/
def renderOutput (output_type : String) (ledger : List Entry) : Option Rendered :=
  if output_type = "list" then
    some (Rendered.list (Conversation.return_messages_as_list ledger))
  else if output_type = "dict" then
    some (Rendered.dict (Conversation.return_messages_as_dictionary ledger))
  else if output_type = "str" then
    some (Rendered.str (Conversation.return_history_as_string ledger))
  else none

/-- main.py lines 329-386, one iteration of the per-ticker loop.  The body
first calls `self.director.generate_thesis(task=task, stock=stock)`
(lines 333-335).  The next statement (lines 337-340) evaluates
`self.director.agent_name` as the role for `add_message`; the
TradingDirector wrapper defines only `director_agent` (the inner swarms
Agent carries the name Trading-Director), so this attribute lookup raises
AttributeError.  Every later statement of the loop body (lines 343-386,
the quant, risk, execution and decision steps and their appends) is
therefore unreachable, and no entry is ever appended for the ticker. -/
def processStock (o : Oracles) (task stock : String) (st : RunState) :
    RunState × Except PyErr Unit :=
  match TradingDirector.generate_thesis o task stock with
  | (calls, .error e) => ({ st with trace := st.trace ++ calls }, .error e)
  | (calls, .ok _) =>
      ({ st with trace := st.trace ++ calls },
       .error (PyErr.attributeError "TradingDirector" "agent_name"))

/-- main.py lines 329-386: the `for stock in self.stocks` loop.  A raise in
the body aborts the loop; later stocks are not processed. -/
def runLoop (o : Oracles) (task : String) :
    List String → RunState → RunState × Except PyErr Unit
  | [], st => (st, .ok ())
  | stock :: rest, st =>
    match processStock o task stock st with
    | (st2, .ok _) => runLoop o task rest st2
    | (st2, .error e) => (st2, .error e)

/-- The state at the top of `AutoHedge.run`: main.py line 326 appends the
user task entry to the fresh conversation before the try block; the logs
list from `__init__` (line 304-310) starts empty. -/
def AutoHedge.initState (task : String) : RunState :=
  { ledger := Conversation.add [] "user" ("Task: " ++ task),
    trace := [],
    logs := [] }

/-- The observable outcome of one `AutoHedge.run` call: the final ledger,
the calls made, the per-stock logs, the messages the run-level except block
logged, and the returned value or propagated exception. -/
structure RunResult where
  ledger : List Entry
  trace : List Call
  logs : List AutoHedgeOutput
  errorLog : List String
  result : Except PyErr (Option Rendered)
deriving Repr

/-- main.py lines 313-418, `AutoHedge.run(task)`: append the user entry,
run the per-ticker loop inside the try block, and on success return the
ledger rendered according to `self.output_type`; on any exception log
"Error in trading cycle: ..." and re-raise the same exception.  The
commented-out block at lines 388-404 (building `AutoHedgeOutput` records and
appending them to `self.logs.logs`) does not execute, so `logs` is returned
as the loop left it. -/
def AutoHedge.run (cfg : AutoHedge) (o : Oracles) (task : String) : RunResult :=
  match runLoop o task cfg.stocks (AutoHedge.initState task) with
  | (st, .ok _) =>
      { ledger := st.ledger, trace := st.trace, logs := st.logs,
        errorLog := [],
        result := .ok (renderOutput cfg.output_type st.ledger) }
  | (st, .error e) =>
      { ledger := st.ledger, trace := st.trace, logs := st.logs,
        errorLog := ["Error in trading cycle: " ++ PyErr.str e],
        result := .error e }

/- ------------------------------------------------------------------ -/
/- Helper lemmas about the loop state.                                 -/
/- ------------------------------------------------------------------ -/

/-- One loop iteration never changes the ledger: the attribute error fires
before the first per-ticker append. -/
theorem processStock_ledger (o : Oracles) (task stock : String) (st : RunState) :
    ((processStock o task stock st).1).ledger = st.ledger := by
  cases h : TradingDirector.generate_thesis o task stock with
  | mk calls r => cases r <;> simp [processStock, h]

/-- One loop iteration never appends a per-stock record. -/
theorem processStock_logs (o : Oracles) (task stock : String) (st : RunState) :
    ((processStock o task stock st).1).logs = st.logs := by
  cases h : TradingDirector.generate_thesis o task stock with
  | mk calls r => cases r <;> simp [processStock, h]

/-- The loop never changes the ledger. -/
theorem runLoop_ledger (o : Oracles) (task : String) (stocks : List String)
    (st : RunState) :
    ((runLoop o task stocks st).1).ledger = st.ledger := by
  induction stocks generalizing st with
  | nil => rfl
  | cons s rest ih =>
    show ((runLoop o task (s :: rest) st).1).ledger = st.ledger
    rw [runLoop]
    cases h : processStock o task s st with
    | mk st2 r =>
      have h1 : st2.ledger = st.ledger := by
        have := processStock_ledger o task s st
        rw [h] at this
        exact this
      cases r with
      | ok u => simpa [ih st2] using h1
      | error e => simpa using h1

/-- The loop never appends a per-stock record. -/
theorem runLoop_logs (o : Oracles) (task : String) (stocks : List String)
    (st : RunState) :
    ((runLoop o task stocks st).1).logs = st.logs := by
  induction stocks generalizing st with
  | nil => rfl
  | cons s rest ih =>
    show ((runLoop o task (s :: rest) st).1).logs = st.logs
    rw [runLoop]
    cases h : processStock o task s st with
    | mk st2 r =>
      have h1 : st2.logs = st.logs := by
        have := processStock_logs o task s st
        rw [h] at this
        exact this
      cases r with
      | ok u => simpa [ih st2] using h1
      | error e => simpa using h1

/-- Splitting the loop over an appended list when the first part succeeds. -/
theorem runLoop_append_ok (o : Oracles) (task : String) (pre rest : List String)
    (st st1 : RunState)
    (h : runLoop o task pre st = (st1, Except.ok ())) :
    runLoop o task (pre ++ rest) st = runLoop o task rest st1 := by
  induction pre generalizing st with
  | nil =>
    have h1 : st = st1 := congrArg Prod.fst h
    rw [List.nil_append, h1]
  | cons s pre ih =>
    rw [runLoop] at h
    show runLoop o task (s :: (pre ++ rest)) st = runLoop o task rest st1
    rw [runLoop]
    cases hp : processStock o task s st with
    | mk st2 r =>
      rw [hp] at h
      cases r with
      | ok u => exact ih st2 h
      | error e => exact absurd (congrArg Prod.snd h) (by simp)

/-- If the loop reaches stock t with state st1 and processing t fails with
error e, the whole loop fails with the same error and the state at the
failure, regardless of the stocks listed after t. -/
theorem runLoop_fail (o : Oracles) (task : String) (pre : List String)
    (t : String) (rest : List String) (st st1 st2 : RunState) (e : PyErr)
    (hpre : runLoop o task pre st = (st1, Except.ok ()))
    (hfail : processStock o task t st1 = (st2, Except.error e)) :
    runLoop o task (pre ++ t :: rest) st = (st2, Except.error e) := by
  rw [runLoop_append_ok o task pre (t :: rest) st st1 hpre]
  rw [runLoop, hfail]

/-- The final ledger of every run is the single user entry appended before
the try block: the loop appends nothing (see `processStock`). -/
theorem run_ledger (cfg : AutoHedge) (o : Oracles) (task : String) :
    (AutoHedge.run cfg o task).ledger =
      [{ role := "user", content := "Task: " ++ task }] := by
  have hl := runLoop_ledger o task cfg.stocks (AutoHedge.initState task)
  rw [AutoHedge.run]
  cases h : runLoop o task cfg.stocks (AutoHedge.initState task) with
  | mk st r =>
    rw [h] at hl
    cases r <;> simpa [AutoHedge.initState, Conversation.add] using hl

/- ------------------------------------------------------------------ -/
/- Concrete inputs used by witnesses and counterexamples.              -/
/- ------------------------------------------------------------------ -/

/-- Oracles whose calls all succeed with fixed texts. -/
def okOracles : Oracles :=
  { tickrRun := fun _ => Except.ok "MD",
    directorRun := fun _ => Except.ok "TH",
    quantRun := fun _ => Except.ok "QA",
    riskRun := fun _ => Except.ok "RA",
    executionRun := fun _ => Except.ok "ORD" }

/-- Oracles whose market-data gateway raises DataUnavailableError. -/
def badDataOracles : Oracles :=
  { okOracles with
    tickrRun := fun _ =>
      Except.error (PyErr.exn "DataUnavailableError" "no data for BADTICKER") }

/-- A system constructed over the single ticker NVDA with the default
output mode. -/
def demoCfg : AutoHedge := { stocks := ["NVDA"] }

/- ------------------------------------------------------------------ -/
/- Claim theorems.                                                     -/
/- ------------------------------------------------------------------ -/

/-- C1: the per-stock result logs of every run are empty, whatever the
configuration, oracles, task or outcome: the block of `AutoHedge.run` that
would build an `AutoHedgeOutput` per ticker and append it to
`self.logs.logs` (main.py lines 388-398) is commented out, so no run ever
records a populated per-ticker result, contradicting the claim that a
normally returning run records one for every ticker. -/
theorem run_per_ticker_logs_empty (cfg : AutoHedge) (o : Oracles) (task : String) :
    (AutoHedge.run cfg o task).logs = [] := by
  have hl := runLoop_logs o task cfg.stocks (AutoHedge.initState task)
  rw [AutoHedge.run]
  cases h : runLoop o task cfg.stocks (AutoHedge.initState task) with
  | mk st r =>
    rw [h] at hl
    cases r <;> simpa [AutoHedge.initState] using hl

/-- C2: a single-ticker run with every external capability succeeding does
not produce the claimed six-entry ledger with roles user, Trading-Director,
Quant-Analyst, Risk-Manager, Execution-Agent, Trading-Director: after the
thesis is generated, the role lookup `self.director.agent_name`
(main.py line 338) raises AttributeError, the run re-raises it, and the
ledger holds only the user entry. -/
theorem run_single_ticker_raises_attribute_error :
    AutoHedge.run demoCfg okOracles "Analyze NVDA for 50k allocation" =
      { ledger := [{ role := "user",
                     content := "Task: Analyze NVDA for 50k allocation" }],
        trace := [Call.tickr ["NVDA"]
                    (marketDataQuery "Analyze NVDA for 50k allocation" "NVDA"),
                  Call.director
                    (DIRECTOR_THESIS_PROMPT_fmt
                      "Analyze NVDA for 50k allocation" "NVDA" "MD")],
        logs := [],
        errorLog :=
          ["Error in trading cycle: TradingDirector object has no attribute agent_name"],
        result := Except.error
          (PyErr.attributeError "TradingDirector" "agent_name") } := rfl

/-- C3: if the loop reaches ticker t (the stocks before it processed without
raising) and processing t raises error e — in particular when a stage
invocation or the market-data fetch raises — then the run re-raises the very
same error after logging it, the final ledger is exactly the ledger at the
failure, no per-ticker result exists, and the outcome is identical to the
run in which every ticker after t is dropped: later tickers are never
processed. -/
theorem run_propagates_stage_error (cfg : AutoHedge) (o : Oracles)
    (task t : String) (pre rest : List String) (st1 st2 : RunState) (e : PyErr)
    (hstocks : cfg.stocks = pre ++ t :: rest)
    (hpre : runLoop o task pre (AutoHedge.initState task) = (st1, Except.ok ()))
    (hfail : processStock o task t st1 = (st2, Except.error e)) :
    AutoHedge.run cfg o task =
      { ledger := st2.ledger, trace := st2.trace, logs := [],
        errorLog := ["Error in trading cycle: " ++ PyErr.str e],
        result := Except.error e } ∧
    AutoHedge.run cfg o task =
      AutoHedge.run { cfg with stocks := pre ++ [t] } o task := by
  have hlogs2 : st2.logs = [] := by
    have h1 : st1.logs = (AutoHedge.initState task).logs := by
      have := runLoop_logs o task pre (AutoHedge.initState task)
      rw [hpre] at this
      exact this
    have h2 : st2.logs = st1.logs := by
      have := processStock_logs o task t st1
      rw [hfail] at this
      exact this
    rw [h2, h1]
    rfl
  have hmain : AutoHedge.run cfg o task =
      { ledger := st2.ledger, trace := st2.trace, logs := [],
        errorLog := ["Error in trading cycle: " ++ PyErr.str e],
        result := Except.error e } := by
    rw [AutoHedge.run, hstocks,
        runLoop_fail o task pre t rest (AutoHedge.initState task) st1 st2 e hpre hfail]
    simp [hlogs2]
  refine ⟨hmain, ?_⟩
  have hcut : runLoop o task (pre ++ [t]) (AutoHedge.initState task) =
      (st2, Except.error e) :=
    runLoop_fail o task pre t [] (AutoHedge.initState task) st1 st2 e hpre hfail
  have hstocks2 : ({ cfg with stocks := pre ++ [t] } : AutoHedge).stocks =
      pre ++ [t] := rfl
  rw [hmain, AutoHedge.run, hstocks2, hcut]
  simp [hlogs2]

/-- C4 counterexample: inside the per-ticker loop the final-decision call
`self.director.make_decision(order + market_data + risk_assessment, thesis)`
(main.py lines 380-382) passes exactly two positional arguments; the run
task string (here the task "Analyze NVDA for 50k allocation") is not among
them, so the claim that make_decision is invoked with the combined context,
the thesis, and the run task string is false at this input. -/
theorem make_decision_call_omits_run_task :
    makeDecisionCallArgs "ORD" "MD" "RA" "TH" = ["ORDMDRA", "TH"] ∧
    "Analyze NVDA for 50k allocation" ∉ makeDecisionCallArgs "ORD" "MD" "RA" "TH" ∧
    makeDecisionCallArgs "ORD" "MD" "RA" "TH" ≠
      ["ORDMDRA", "TH", "Analyze NVDA for 50k allocation"] := by
  refine ⟨rfl, ?_, ?_⟩ <;> decide

/-- C4 amended: the final-decision call site passes make_decision exactly
the concatenation order + market_data + risk_assessment and the thesis (no
run task argument), and make_decision runs the director agent on the
decision template with that combined context placed in its task field and
the thesis in its thesis field — pure string concatenation, no structured
merge. -/
theorem decision_step_combined_context (o : Oracles)
    (order market_data risk_assessment thesis : String) :
    makeDecisionCallArgs order market_data risk_assessment thesis =
      [order ++ market_data ++ risk_assessment, thesis] ∧
    TradingDirector.make_decision o
        (order ++ market_data ++ risk_assessment) thesis =
      ([Call.director (DIRECTOR_DECISION_PROMPT_fmt thesis
          (order ++ market_data ++ risk_assessment))],
       o.directorRun (DIRECTOR_DECISION_PROMPT_fmt thesis
          (order ++ market_data ++ risk_assessment))) ∧
    DIRECTOR_DECISION_PROMPT_fmt thesis
        (order ++ market_data ++ risk_assessment) =
      "According to the thesis, " ++ thesis
        ++ ", should we execute this order: "
        ++ (order ++ market_data ++ risk_assessment) :=
  ⟨rfl, rfl, rfl⟩

/-- C5 counterexample: inside the per-ticker loop the quant call
`self.quant.analyze(stock + market_data, thesis)` (main.py lines 343-345)
passes exactly two positional arguments; the run task string is not among
them (and main.py's `QuantAnalyst.analyze` has no task parameter at all), so
the claim that analyze is invoked with ticker+marketData, the thesis, and
the run task string is false at this input. -/
theorem quant_call_omits_run_task :
    quantCallArgs "NVDA" "MD" "TH" = ["NVDAMD", "TH"] ∧
    "Analyze NVDA for 50k allocation" ∉ quantCallArgs "NVDA" "MD" "TH" ∧
    quantCallArgs "NVDA" "MD" "TH" ≠
      ["NVDAMD", "TH", "Analyze NVDA for 50k allocation"] := by
  refine ⟨rfl, ?_, ?_⟩ <;> decide

/-- C5 amended: the quant call site passes analyze exactly the concatenation
ticker + marketData as its stock input together with the thesis (no run task
argument), and analyze runs the quant agent on the quant-analysis template
formatted with that stock input and the thesis. -/
theorem quant_step_inputs (o : Oracles) (stock market_data thesis : String) :
    quantCallArgs stock market_data thesis = [stock ++ market_data, thesis] ∧
    QuantAnalyst.analyze o (stock ++ market_data) thesis =
      ([Call.quant (QUANT_ANALYSIS_PROMPT_fmt (stock ++ market_data) thesis)],
       o.quantRun (QUANT_ANALYSIS_PROMPT_fmt (stock ++ market_data) thesis)) :=
  ⟨rfl, rfl⟩

/-- C6: when the per-ticker loop completes without raising, the run returns
the underlying ledger rendered according to the output mode fixed at
construction: the ordered entry list for "list", the role/content mapping
projection for "dict", and the single concatenated history string for
"str" — all three are projections of the same final ledger. -/
theorem run_render_mode_dispatch (cfg : AutoHedge) (o : Oracles)
    (task : String) (st : RunState)
    (hok : runLoop o task cfg.stocks (AutoHedge.initState task) =
      (st, Except.ok ())) :
    (AutoHedge.run cfg o task).result =
      Except.ok (renderOutput cfg.output_type st.ledger) ∧
    (cfg.output_type = "list" →
      (AutoHedge.run cfg o task).result =
        Except.ok (some (Rendered.list st.ledger))) ∧
    (cfg.output_type = "dict" →
      (AutoHedge.run cfg o task).result =
        Except.ok (some (Rendered.dict
          (Conversation.return_messages_as_dictionary st.ledger)))) ∧
    (cfg.output_type = "str" →
      (AutoHedge.run cfg o task).result =
        Except.ok (some (Rendered.str
          (Conversation.return_history_as_string st.ledger)))) := by
  have hres : (AutoHedge.run cfg o task).result =
      Except.ok (renderOutput cfg.output_type st.ledger) := by
    rw [AutoHedge.run, hok]
  refine ⟨hres, ?_, ?_, ?_⟩ <;> intro hm <;> rw [hres, hm] <;>
    simp [renderOutput, Conversation.return_messages_as_list]

/-- C7: generate_thesis first fetches market data for the ticker through the
TickrAgent gateway (constructed over that single ticker and run on the
market-data query), then runs the director agent on the thesis template
formatted with the task, the ticker and the fetched market data, and returns
the pair (thesis, market data); the recorded calls show the fetch precedes
the reasoning-stage invocation. -/
theorem generate_thesis_fetch_then_prompt (o : Oracles)
    (task stock market_data thesis : String)
    (hmd : o.tickrRun (marketDataQuery task stock) = Except.ok market_data)
    (hth : o.directorRun (DIRECTOR_THESIS_PROMPT_fmt task stock market_data) =
      Except.ok thesis) :
    TradingDirector.generate_thesis o task stock =
      ([Call.tickr [stock] (marketDataQuery task stock),
        Call.director (DIRECTOR_THESIS_PROMPT_fmt task stock market_data)],
       Except.ok (thesis, market_data)) := by
  rw [TradingDirector.generate_thesis]
  simp only [hmd, hth]

/-- C7 witness: with concrete succeeding oracles and task "T", ticker
"NVDA", the hypotheses hold and generate_thesis returns the director output
paired with the fetched market data, with the fetch recorded first. -/
theorem generate_thesis_fetch_then_prompt_witness :
    okOracles.tickrRun (marketDataQuery "T" "NVDA") = Except.ok "MD" ∧
    okOracles.directorRun (DIRECTOR_THESIS_PROMPT_fmt "T" "NVDA" "MD") =
      Except.ok "TH" ∧
    TradingDirector.generate_thesis okOracles "T" "NVDA" =
      ([Call.tickr ["NVDA"] (marketDataQuery "T" "NVDA"),
        Call.director (DIRECTOR_THESIS_PROMPT_fmt "T" "NVDA" "MD")],
       Except.ok ("TH", "MD")) :=
  ⟨rfl, rfl, generate_thesis_fetch_then_prompt okOracles "T" "NVDA" "MD" "TH" rfl rfl⟩

/-- C8: the first ledger entry of every run — whatever the configuration,
the oracles and the outcome, including runs that later raise — is the entry
with role user and content "Task: " ++ task appended before the try block
and before any ticker is processed. -/
theorem run_first_ledger_entry (cfg : AutoHedge) (o : Oracles) (task : String) :
    (AutoHedge.run cfg o task).ledger.head? =
      some { role := "user", content := "Task: " ++ task } ∧
    (AutoHedge.initState task).ledger =
      [{ role := "user", content := "Task: " ++ task }] := by
  refine ⟨?_, rfl⟩
  rw [run_ledger]
  rfl

/-- C9: a run whose loop completes without raising and whose output mode is
none of "list", "dict", "str" returns Python None (modelled as `none`): the
unrecognized mode is rejected neither at construction nor at run time and no
exception is raised. -/
theorem run_unrecognized_mode_returns_none (cfg : AutoHedge) (o : Oracles)
    (task : String) (st : RunState)
    (hok : runLoop o task cfg.stocks (AutoHedge.initState task) =
      (st, Except.ok ()))
    (h1 : cfg.output_type ≠ "list") (h2 : cfg.output_type ≠ "dict")
    (h3 : cfg.output_type ≠ "str") :
    (AutoHedge.run cfg o task).result = Except.ok none := by
  rw [AutoHedge.run, hok]
  simp [renderOutput, h1, h2, h3]

/-- C10: a run constructed over the empty ticker list makes no reasoning
stage or market-data gateway call (the call trace is empty), appends exactly
the single initial user entry, records no per-ticker result, logs no error,
and returns normally with that one-entry ledger rendered in the configured
output mode. -/
theorem run_empty_ticker_list (cfg : AutoHedge) (o : Oracles) (task : String)
    (hempty : cfg.stocks = []) :
    AutoHedge.run cfg o task =
      { ledger := [{ role := "user", content := "Task: " ++ task }],
        trace := [], logs := [], errorLog := [],
        result := Except.ok (renderOutput cfg.output_type
          [{ role := "user", content := "Task: " ++ task }]) } := by
  rw [AutoHedge.run, hempty]
  rfl

/-- C3 witness: in a two-ticker run over BADTICKER then AAPL whose
market-data gateway raises DataUnavailableError, the loop reaches BADTICKER
immediately, processing it fails with that error, and the run logs and
re-raises the very same error, keeps the user entry appended before the
failure, records no per-ticker result, and equals the run with AAPL dropped. -/
theorem run_propagates_stage_error_witness :
    runLoop badDataOracles "T" [] (AutoHedge.initState "T") =
      (AutoHedge.initState "T", Except.ok ()) ∧
    processStock badDataOracles "T" "BADTICKER" (AutoHedge.initState "T") =
      ({ ledger := [{ role := "user", content := "Task: T" }],
         trace := [Call.tickr ["BADTICKER"] (marketDataQuery "T" "BADTICKER")],
         logs := [] },
       Except.error (PyErr.exn "DataUnavailableError" "no data for BADTICKER")) ∧
    (AutoHedge.run { stocks := ["BADTICKER", "AAPL"] } badDataOracles "T" =
      { ledger := [{ role := "user", content := "Task: T" }],
        trace := [Call.tickr ["BADTICKER"] (marketDataQuery "T" "BADTICKER")],
        logs := [],
        errorLog := ["Error in trading cycle: no data for BADTICKER"],
        result := Except.error
          (PyErr.exn "DataUnavailableError" "no data for BADTICKER") } ∧
     AutoHedge.run { stocks := ["BADTICKER", "AAPL"] } badDataOracles "T" =
       AutoHedge.run { stocks := ["BADTICKER"] } badDataOracles "T") :=
  ⟨rfl, rfl,
   run_propagates_stage_error { stocks := ["BADTICKER", "AAPL"] } badDataOracles
     "T" "BADTICKER" [] ["AAPL"]
     (AutoHedge.initState "T")
     { ledger := [{ role := "user", content := "Task: T" }],
       trace := [Call.tickr ["BADTICKER"] (marketDataQuery "T" "BADTICKER")],
       logs := [] }
     (PyErr.exn "DataUnavailableError" "no data for BADTICKER")
     rfl rfl rfl⟩

/-- C6 witness: a run in the "str" output mode whose loop completes (empty
ticker list) returns the history string rendering of its ledger. -/
theorem run_render_mode_dispatch_witness :
    runLoop okOracles "T"
        ({ stocks := [], output_type := "str" } : AutoHedge).stocks
        (AutoHedge.initState "T") = (AutoHedge.initState "T", Except.ok ()) ∧
    (AutoHedge.run { stocks := [], output_type := "str" } okOracles "T").result =
      Except.ok (some (Rendered.str "user: Task: T")) :=
  ⟨rfl,
   ((run_render_mode_dispatch { stocks := [], output_type := "str" } okOracles
       "T" (AutoHedge.initState "T") rfl).2.2.2 rfl).trans rfl⟩

/-- C9 witness: a run constructed with the unrecognized output mode "json"
over the empty ticker list completes its loop and returns None. -/
theorem run_unrecognized_mode_returns_none_witness :
    runLoop okOracles "T"
        ({ stocks := [], output_type := "json" } : AutoHedge).stocks
        (AutoHedge.initState "T") = (AutoHedge.initState "T", Except.ok ()) ∧
    ({ stocks := [], output_type := "json" } : AutoHedge).output_type ≠ "list" ∧
    ({ stocks := [], output_type := "json" } : AutoHedge).output_type ≠ "dict" ∧
    ({ stocks := [], output_type := "json" } : AutoHedge).output_type ≠ "str" ∧
    (AutoHedge.run { stocks := [], output_type := "json" } okOracles "T").result =
      Except.ok none :=
  ⟨rfl, by decide, by decide, by decide,
   run_unrecognized_mode_returns_none { stocks := [], output_type := "json" }
     okOracles "T" (AutoHedge.initState "T") rfl (by decide) (by decide)
     (by decide)⟩

/-- C10 witness: a run over the empty ticker list in the default "list"
output mode makes no external call, appends only the user entry, and returns
the list rendering of that one-entry ledger. -/
theorem run_empty_ticker_list_witness :
    ({ stocks := [] } : AutoHedge).stocks = [] ∧
    AutoHedge.run { stocks := [] } okOracles "T" =
      { ledger := [{ role := "user", content := "Task: T" }],
        trace := [], logs := [], errorLog := [],
        result := Except.ok (some (Rendered.list
          [{ role := "user", content := "Task: T" }])) } :=
  ⟨rfl, run_empty_ticker_list { stocks := [] } okOracles "T" rfl⟩
